import Mathlib

/-!
Shallow embedding of the Soroban-Registry frontend API client
(src/frontend/lib/api.ts): the data shapes, the query-string builder of
`getContracts`, the URL construction of every operation, the JSON body of
`publishContract`, and the response handling (status check, generic error,
JSON pass-through) shared by all seven operations.
-/

namespace SorobanRegistry

/-- The closed network enumeration of the client types. -/
inductive Network where
  | mainnet
  | testnet
  | futurenet
deriving DecidableEq, Repr

/-- The string value of a network tag, as it appears in query strings and
JSON bodies. -/
def networkToString : Network → String
  | Network.mainnet => "mainnet"
  | Network.testnet => "testnet"
  | Network.futurenet => "futurenet"

/-- A JSON value, the result of JSON.parse on a response body and the input
of JSON.stringify for a request body.  Numbers are modelled as integers:
every numeric value the claims touch is integral. -/
inductive Json where
  | null
  | bool (b : Bool)
  | num (n : Int)
  | str (s : String)
  | arr (items : List Json)
  | obj (fields : List (String × Json))

/-- A JavaScript exception value: either an Error built with a message
(thrown by the client itself) or some other thrown value (whatever the
transport or the JSON parser raised), kept opaque. -/
inductive JsException where
  | error (message : String)
  | other (value : String)
deriving DecidableEq, Repr

/-- An HTTP response as the client observes it: a status code, and the
outcome of calling response.json() on its body (which may itself throw). -/
structure HttpResponse where
  status : Nat
  json : Except JsException Json

/-- response.ok of the Fetch API: true exactly when the status is in the
2xx success range 200..299. -/
def responseOk (r : HttpResponse) : Bool :=
  decide (200 ≤ r.status) && decide (r.status ≤ 299)

/-- The response-handling tail shared verbatim by every operation:
a transport failure propagates unmodified; a non-ok status throws
new Error(failMsg); an ok status returns response.json() unchanged
(a JSON parse failure also propagates). -/
def handleResponse (failMsg : String) (fetched : Except JsException HttpResponse) :
    Except JsException Json :=
  match fetched with
  | Except.error e => Except.error e
  | Except.ok r =>
      if responseOk r then r.json
      else Except.error (JsException.error failMsg)

/-- Result of api.getContracts given the outcome of its fetch. -/
def getContracts_result (fetched : Except JsException HttpResponse) :
    Except JsException Json :=
  handleResponse "Failed to fetch contracts" fetched

/-- Result of api.getContract given the outcome of its fetch. -/
def getContract_result (fetched : Except JsException HttpResponse) :
    Except JsException Json :=
  handleResponse "Failed to fetch contract" fetched

/-- Result of api.getContractVersions given the outcome of its fetch. -/
def getContractVersions_result (fetched : Except JsException HttpResponse) :
    Except JsException Json :=
  handleResponse "Failed to fetch contract versions" fetched

/-- Result of api.publishContract given the outcome of its fetch. -/
def publishContract_result (fetched : Except JsException HttpResponse) :
    Except JsException Json :=
  handleResponse "Failed to publish contract" fetched

/-- Result of api.getPublisher given the outcome of its fetch. -/
def getPublisher_result (fetched : Except JsException HttpResponse) :
    Except JsException Json :=
  handleResponse "Failed to fetch publisher" fetched

/-- Result of api.getPublisherContracts given the outcome of its fetch. -/
def getPublisherContracts_result (fetched : Except JsException HttpResponse) :
    Except JsException Json :=
  handleResponse "Failed to fetch publisher contracts" fetched

/-- Result of api.getStats given the outcome of its fetch. -/
def getStats_result (fetched : Except JsException HttpResponse) :
    Except JsException Json :=
  handleResponse "Failed to fetch stats" fetched

/-- The seven operations of the api object. -/
inductive ApiOp where
  | getContracts
  | getContract
  | getContractVersions
  | publishContract
  | getPublisher
  | getPublisherContracts
  | getStats
deriving DecidableEq, Repr

/-- The fixed human-readable failure message of each operation, exactly the
string passed to new Error in the source. -/
def failMessage : ApiOp → String
  | ApiOp.getContracts => "Failed to fetch contracts"
  | ApiOp.getContract => "Failed to fetch contract"
  | ApiOp.getContractVersions => "Failed to fetch contract versions"
  | ApiOp.publishContract => "Failed to publish contract"
  | ApiOp.getPublisher => "Failed to fetch publisher"
  | ApiOp.getPublisherContracts => "Failed to fetch publisher contracts"
  | ApiOp.getStats => "Failed to fetch stats"

/-- An operation's result as a function of its fetch outcome, indexed over
the seven operations. -/
def opResult : ApiOp → Except JsException HttpResponse → Except JsException Json
  | ApiOp.getContracts => getContracts_result
  | ApiOp.getContract => getContract_result
  | ApiOp.getContractVersions => getContractVersions_result
  | ApiOp.publishContract => publishContract_result
  | ApiOp.getPublisher => getPublisher_result
  | ApiOp.getPublisherContracts => getPublisherContracts_result
  | ApiOp.getStats => getStats_result

/-- The module-level constant API_URL:
process.env.NEXT_PUBLIC_API_URL with a JavaScript || fallback to the
localhost default.  The || treats both an unset variable (undefined) and
the empty string as falsy. -/
def apiUrl (env : Option String) : String :=
  match env with
  | none => "http://localhost:3001"
  | some s => if s = "" then "http://localhost:3001" else s

/-- The search parameter shape accepted by getContracts; every field is
optional.  tags is part of the type but never read by getContracts. -/
structure ContractSearchParams where
  query : Option String := none
  network : Option Network := none
  verified_only : Option Bool := none
  category : Option String := none
  tags : Option (List String) := none
  page : Option Int := none
  page_size : Option Int := none

/-- The pairs appended for a string-valued field guarded by a plain
truthiness check, as in: if (params?.query) queryParams.append(...).
The empty string is falsy in JavaScript, so it is skipped. -/
def strParamPairs (key : String) (o : Option String) : List (String × String) :=
  match o with
  | none => []
  | some s => if s = "" then [] else [(key, s)]

/-- The pairs appended for verified_only, which is guarded by an explicit
undefined check: if (params?.verified_only !== undefined) ... , so false
is serialized (String(false) is the string false). -/
def boolParamPairs (key : String) (o : Option Bool) : List (String × String) :=
  match o with
  | none => []
  | some b => [(key, if b then "true" else "false")]

/-- The pairs appended for a numeric field guarded by a plain truthiness
check, as in: if (params?.page) ... .  The number 0 is falsy in
JavaScript, so it is skipped. -/
def intParamPairs (key : String) (o : Option Int) : List (String × String) :=
  match o with
  | none => []
  | some n => if n = 0 then [] else [(key, toString n)]

/-- The key/value pairs that getContracts appends to its URLSearchParams,
in source order: query, network, verified_only, category, page,
page_size.  The tags field is never consulted. -/
def searchQueryPairs (p : ContractSearchParams) : List (String × String) :=
  strParamPairs "query" p.query ++
  strParamPairs "network" (p.network.map networkToString) ++
  boolParamPairs "verified_only" p.verified_only ++
  strParamPairs "category" p.category ++
  intParamPairs "page" p.page ++
  intParamPairs "page_size" p.page_size

/-- An uppercase hexadecimal digit, used by percent-encoding. -/
def hexDigitUpper (n : Nat) : Char :=
  if n < 10 then Char.ofNat (48 + n) else Char.ofNat (55 + n)

/-- A lowercase hexadecimal digit, used by JSON string escapes. -/
def hexDigitLower (n : Nat) : Char :=
  if n < 10 then Char.ofNat (48 + n) else Char.ofNat (87 + n)

/-- The UTF-8 bytes of a code point. -/
def utf8Bytes (n : Nat) : List Nat :=
  if n < 128 then [n]
  else if n < 2048 then [192 + n / 64, 128 + n % 64]
  else if n < 65536 then [224 + n / 4096, 128 + n / 64 % 64, 128 + n % 64]
  else [240 + n / 262144, 128 + n / 4096 % 64, 128 + n / 64 % 64, 128 + n % 64]

/-- Percent-encoding of one byte, uppercase as URLSearchParams emits it. -/
def percentEncodeByte (b : Nat) : String :=
  String.singleton '%' ++ String.singleton (hexDigitUpper (b / 16)) ++
    String.singleton (hexDigitUpper (b % 16))

/-- Characters that URLSearchParams serialization leaves unescaped. -/
def formUnreserved (c : Char) : Bool :=
  c.isAlphanum || c == '*' || c == '-' || c == '.' || c == '_'

/-- application/x-www-form-urlencoded serialization of one character, as
URLSearchParams.toString performs it: space becomes +, unreserved
characters pass through, everything else is percent-encoded by UTF-8
byte. -/
def formEncodeChar (c : Char) : String :=
  if c == ' ' then "+"
  else if formUnreserved c then String.singleton c
  else String.join ((utf8Bytes c.toNat).map percentEncodeByte)

/-- application/x-www-form-urlencoded serialization of a string. -/
def formEncode (s : String) : String :=
  String.join (s.data.map formEncodeChar)

/-- URLSearchParams.toString: key=value pairs joined by &. -/
def queryToString (pairs : List (String × String)) : String :=
  String.intercalate "&" (pairs.map (fun kv => formEncode kv.1 ++ "=" ++ formEncode kv.2))

/-- The publish request shape; description, category and source_url are
optional, the rest are required. -/
structure PublishRequest where
  contract_id : String
  name : String
  description : Option String := none
  network : Network
  category : Option String := none
  tags : List String
  source_url : Option String := none
  publisher_address : String

/-- JSON.stringify(data) for a PublishRequest object: fields in property
order, optional fields that are undefined omitted entirely (JSON.stringify
drops undefined properties). -/
def encodePublishRequest (d : PublishRequest) : Json :=
  Json.obj (
    [("contract_id", Json.str d.contract_id), ("name", Json.str d.name)] ++
    (match d.description with
     | some s => [("description", Json.str s)]
     | none => []) ++
    [("network", Json.str (networkToString d.network))] ++
    (match d.category with
     | some s => [("category", Json.str s)]
     | none => []) ++
    [("tags", Json.arr (d.tags.map Json.str))] ++
    (match d.source_url with
     | some s => [("source_url", Json.str s)]
     | none => []) ++
    [("publisher_address", Json.str d.publisher_address)])

/-- JSON string escaping as JSON.stringify performs it. -/
def escapeJsonChar (c : Char) : String :=
  if c == Char.ofNat 34 then "\\\""
  else if c == '\\' then "\\\\"
  else if c == '\n' then "\\n"
  else if c == '\t' then "\\t"
  else if c == '\r' then "\\r"
  else if c.toNat == 8 then "\\b"
  else if c.toNat == 12 then "\\f"
  else if c.toNat < 32 then
    "\\u00" ++ String.singleton (hexDigitLower (c.toNat / 16)) ++
      String.singleton (hexDigitLower (c.toNat % 16))
  else String.singleton c

/-- JSON string escaping applied to a whole string, with the surrounding
quotes. -/
def quoteJsonString (s : String) : String :=
  String.singleton (Char.ofNat 34) ++ String.join (s.data.map escapeJsonChar) ++
    String.singleton (Char.ofNat 34)

mutual

/-- JSON.stringify of a JSON value. -/
def jsonStringify : Json → String
  | Json.null => "null"
  | Json.bool b => if b then "true" else "false"
  | Json.num n => toString n
  | Json.str s => quoteJsonString s
  | Json.arr items => "[" ++ String.intercalate "," (jsonStringifyItems items) ++ "]"
  | Json.obj fields =>
      "\x7b" ++ String.intercalate "," (jsonStringifyFields fields) ++ "\x7d"

/-- JSON.stringify of each element of an array. -/
def jsonStringifyItems : List Json → List String
  | [] => []
  | j :: rest => jsonStringify j :: jsonStringifyItems rest

/-- JSON.stringify of each key/value member of an object. -/
def jsonStringifyFields : List (String × Json) → List String
  | [] => []
  | (k, v) :: rest =>
      (quoteJsonString k ++ ":" ++ jsonStringify v) :: jsonStringifyFields rest

end

/-- The keys of a JSON object (empty for a non-object value). -/
def jsonObjKeys : Json → List String
  | Json.obj fields => fields.map Prod.fst
  | _ => []

/-- An HTTP request as the client constructs it before handing it to
fetch. -/
structure Request where
  method : String
  url : String
  headers : List (String × String)
  body : Option String

/-- The request built by api.getContracts: a GET with the template literal
url of API_URL, the literal /api/contracts?, and the serialized
URLSearchParams. -/
def getContracts_request (env : Option String) (p : ContractSearchParams) : Request :=
  { method := "GET"
    url := apiUrl env ++ "/api/contracts?" ++ queryToString (searchQueryPairs p)
    headers := []
    body := none }

/-- The request built by api.getContract: a GET with the id interpolated
raw into the template literal. -/
def getContract_request (env : Option String) (id : String) : Request :=
  { method := "GET"
    url := apiUrl env ++ "/api/contracts/" ++ id
    headers := []
    body := none }

/-- The request built by api.getContractVersions. -/
def getContractVersions_request (env : Option String) (id : String) : Request :=
  { method := "GET"
    url := apiUrl env ++ "/api/contracts/" ++ id ++ "/versions"
    headers := []
    body := none }

/-- The request built by api.publishContract: a POST with a Content-Type
header and JSON.stringify(data) as its body. -/
def publishContract_request (env : Option String) (d : PublishRequest) : Request :=
  { method := "POST"
    url := apiUrl env ++ "/api/contracts"
    headers := [("Content-Type", "application/json")]
    body := some (jsonStringify (encodePublishRequest d)) }

/-- The request built by api.getPublisher. -/
def getPublisher_request (env : Option String) (id : String) : Request :=
  { method := "GET"
    url := apiUrl env ++ "/api/publishers/" ++ id
    headers := []
    body := none }

/-- The request built by api.getPublisherContracts. -/
def getPublisherContracts_request (env : Option String) (id : String) : Request :=
  { method := "GET"
    url := apiUrl env ++ "/api/publishers/" ++ id ++ "/contracts"
    headers := []
    body := none }

/-- The request built by api.getStats. -/
def getStats_request (env : Option String) : Request :=
  { method := "GET"
    url := apiUrl env ++ "/api/stats"
    headers := []
    body := none }

/-- Split a character list on slashes, accumulating the current segment in
reverse. -/
def splitOnSlash : List Char → List Char → List String
  | [], acc => [String.mk acc.reverse]
  | c :: rest, acc =>
      if c == '/' then String.mk acc.reverse :: splitOnSlash rest []
      else splitOnSlash rest (c :: acc)

/-- The slash-separated segments of a URL path, a reading of which path a
server would route a raw URL to. -/
def pathSegments (s : String) : List String :=
  (splitOnSlash s.data []).filter (fun seg => seg != "")

/-! Helper lemmas about the query-pair builders. -/

theorem mem_strParamPairs_keys (key k : String) (o : Option String) :
    k ∈ (strParamPairs key o).map Prod.fst ↔ (k = key ∧ ∃ s, o = some s ∧ s ≠ "") := by
  cases o with
  | none => simp [strParamPairs]
  | some s =>
    by_cases hs : s = "" <;> simp [strParamPairs, hs]

theorem mem_boolParamPairs_keys (key k : String) (o : Option Bool) :
    k ∈ (boolParamPairs key o).map Prod.fst ↔ (k = key ∧ o.isSome = true) := by
  cases o <;> simp [boolParamPairs]

theorem mem_intParamPairs_keys (key k : String) (o : Option Int) :
    k ∈ (intParamPairs key o).map Prod.fst ↔ (k = key ∧ ∃ n, o = some n ∧ n ≠ 0) := by
  cases o with
  | none => simp [intParamPairs]
  | some n =>
    by_cases hn : n = 0 <;> simp [intParamPairs, hn]

theorem networkToString_ne_empty (n : Network) : networkToString n ≠ "" := by
  cases n <;> decide

theorem network_truthy_iff (o : Option Network) :
    (∃ s, Option.map networkToString o = some s ∧ s ≠ "") ↔ o.isSome = true := by
  cases o with
  | none => simp
  | some n => simp [networkToString_ne_empty n]

/-- C1 (amended): the query string built by getContracts contains exactly
these keys: query, category when defined and non-empty; network when
defined; verified_only when defined (false included); page, page_size when
defined and non-zero; and never a tags key.  A field that is defined but
falsy (empty string, zero) is not serialized. -/
theorem getContracts_query_keys (p : ContractSearchParams) :
    (∀ k, k ∈ (searchQueryPairs p).map Prod.fst ↔
      ((k = "query" ∧ ∃ s, p.query = some s ∧ s ≠ "") ∨
       (k = "network" ∧ p.network.isSome = true) ∨
       (k = "verified_only" ∧ p.verified_only.isSome = true) ∨
       (k = "category" ∧ ∃ s, p.category = some s ∧ s ≠ "") ∨
       (k = "page" ∧ ∃ n, p.page = some n ∧ n ≠ 0) ∨
       (k = "page_size" ∧ ∃ n, p.page_size = some n ∧ n ≠ 0))) ∧
    "tags" ∉ (searchQueryPairs p).map Prod.fst := by
  have hmem : ∀ k, k ∈ (searchQueryPairs p).map Prod.fst ↔
      ((k = "query" ∧ ∃ s, p.query = some s ∧ s ≠ "") ∨
       (k = "network" ∧ p.network.isSome = true) ∨
       (k = "verified_only" ∧ p.verified_only.isSome = true) ∨
       (k = "category" ∧ ∃ s, p.category = some s ∧ s ≠ "") ∨
       (k = "page" ∧ ∃ n, p.page = some n ∧ n ≠ 0) ∨
       (k = "page_size" ∧ ∃ n, p.page_size = some n ∧ n ≠ 0)) := by
    intro k
    simp only [searchQueryPairs, List.map_append, List.mem_append,
      mem_strParamPairs_keys, mem_boolParamPairs_keys, mem_intParamPairs_keys,
      network_truthy_iff, or_assoc]
  refine ⟨hmem, ?_⟩
  rw [hmem "tags"]
  rintro (⟨h, -⟩ | ⟨h, -⟩ | ⟨h, -⟩ | ⟨h, -⟩ | ⟨h, -⟩ | ⟨h, -⟩) <;> exact absurd h (by decide)

/-- C1 counterexample: with query defined as the empty string, the field is
defined yet the query key is absent from the constructed query string,
against the claim that every defined field is serialized. -/
theorem getContracts_query_empty_string_counterexample :
    (({ query := some "" } : ContractSearchParams).query ≠ none) ∧
    "query" ∉ (searchQueryPairs { query := some "" }).map Prod.fst := by
  constructor
  · decide
  · decide

/-! Helper lemmas about response.ok. -/

theorem responseOk_eq_true (r : HttpResponse) (h : 200 ≤ r.status ∧ r.status ≤ 299) :
    responseOk r = true := by
  simp [responseOk, h.1, h.2]

theorem responseOk_eq_false (r : HttpResponse) (h : r.status < 200 ∨ 299 < r.status) :
    responseOk r = false := by
  simp only [responseOk, Bool.and_eq_false_iff, decide_eq_false_iff_not, not_le]
  omega

/-- C2: every operation, given a response whose status is outside the 2xx
success range, fails with a generic error carrying exactly that
operation's fixed message; the result does not depend on the response
body, which is left arbitrary here. -/
theorem non2xx_raises_generic_error (op : ApiOp) (r : HttpResponse)
    (h : r.status < 200 ∨ 299 < r.status) :
    opResult op (Except.ok r) = Except.error (JsException.error (failMessage op)) := by
  have hok : responseOk r = false := responseOk_eq_false r h
  cases op <;>
    simp [opResult, getContracts_result, getContract_result, getContractVersions_result,
      publishContract_result, getPublisher_result, getPublisherContracts_result,
      getStats_result, handleResponse, hok, failMessage]

/-- Witness for C2: a 404 response to getContracts yields the fixed
message Failed to fetch contracts. -/
theorem non2xx_raises_generic_error_witness :
    ((404 : Nat) < 200 ∨ 299 < (404 : Nat)) ∧
    opResult ApiOp.getContracts (Except.ok ⟨404, Except.ok Json.null⟩) =
      Except.error (JsException.error "Failed to fetch contracts") :=
  ⟨Or.inr (by decide),
    non2xx_raises_generic_error ApiOp.getContracts ⟨404, Except.ok Json.null⟩
      (Or.inr (by decide))⟩

/-- C3: for a 2xx response whose body parses to a JSON value j, getContract
returns exactly j: the parsed payload is passed through with no
transformation, renaming or coercion. -/
theorem getContract_round_trip (r : HttpResponse) (j : Json)
    (h2 : 200 ≤ r.status ∧ r.status ≤ 299) (hj : r.json = Except.ok j) :
    getContract_result (Except.ok r) = Except.ok j := by
  simp [getContract_result, handleResponse, responseOk_eq_true r h2, hj]

/-- Witness for C3: a fixed payload for getContract comes back unchanged. -/
theorem getContract_round_trip_witness :
    (200 ≤ (200 : Nat) ∧ (200 : Nat) ≤ 299) ∧
    getContract_result
        (Except.ok ⟨200, Except.ok (Json.obj [("id", Json.str "x")])⟩) =
      Except.ok (Json.obj [("id", Json.str "x")]) :=
  ⟨by decide, getContract_round_trip _ _ (by decide) rfl⟩

/-- C4: publishContract issues a POST to /api/contracts under the base URL,
with a Content-Type application/json header, and its body is exactly the
JSON encoding of the PublishRequest: the object's keys are precisely the
five required fields plus each optional field that is defined, none
renamed, none added. -/
theorem publishContract_request_exact (env : Option String) (d : PublishRequest) :
    (publishContract_request env d).method = "POST" ∧
    (publishContract_request env d).url = apiUrl env ++ "/api/contracts" ∧
    ("Content-Type", "application/json") ∈ (publishContract_request env d).headers ∧
    (publishContract_request env d).body = some (jsonStringify (encodePublishRequest d)) ∧
    (∀ k, k ∈ jsonObjKeys (encodePublishRequest d) ↔
      (k = "contract_id" ∨ k = "name" ∨ k = "network" ∨ k = "tags" ∨
       k = "publisher_address" ∨
       (k = "description" ∧ d.description.isSome = true) ∨
       (k = "category" ∧ d.category.isSome = true) ∨
       (k = "source_url" ∧ d.source_url.isSome = true))) := by
  refine ⟨rfl, rfl, by simp [publishContract_request], rfl, ?_⟩
  intro k
  obtain ⟨cid, nm, desc, net, cat, tg, src, addr⟩ := d
  cases desc <;> cases cat <;> cases src <;>
    simp [encodePublishRequest, jsonObjKeys] <;> tauto

/-- The payload used to exhibit that getStats does not validate its
response shape: the three expected numeric fields plus one extra field. -/
def statsPayloadWithExtra : Json :=
  Json.obj [("total_contracts", Json.num 42), ("verified_contracts", Json.num 7),
    ("total_publishers", Json.num 5), ("extra_field", Json.num 1)]

/-- C5 counterexample: a 2xx stats payload carrying a fourth field is
returned by getStats unchanged, extra field included — so the returned
record is not limited to the three declared fields. -/
theorem getStats_passes_extra_fields_through :
    getStats_result (Except.ok ⟨200, Except.ok statsPayloadWithExtra⟩) =
      Except.ok statsPayloadWithExtra ∧
    "extra_field" ∈ jsonObjKeys statsPayloadWithExtra := by
  exact ⟨rfl, by simp [statsPayloadWithExtra, jsonObjKeys]⟩

/-- C5 (amended): for any 2xx response, getStats returns the parsed JSON
body unchanged; it contains exactly the three declared numeric fields only
when the server's payload does, since no runtime validation or filtering
is performed. -/
theorem getStats_returns_parsed_json (r : HttpResponse) (j : Json)
    (h2 : 200 ≤ r.status ∧ r.status ≤ 299) (hj : r.json = Except.ok j) :
    getStats_result (Except.ok r) = Except.ok j := by
  simp [getStats_result, handleResponse, responseOk_eq_true r h2, hj]

/-- Witness for the amended C5: a payload of exactly the three numeric
fields is returned exactly. -/
theorem getStats_returns_parsed_json_witness :
    (200 ≤ (200 : Nat) ∧ (200 : Nat) ≤ 299) ∧
    getStats_result (Except.ok ⟨200, Except.ok (Json.obj
        [("total_contracts", Json.num 1), ("verified_contracts", Json.num 1),
         ("total_publishers", Json.num 1)])⟩) =
      Except.ok (Json.obj [("total_contracts", Json.num 1),
        ("verified_contracts", Json.num 1), ("total_publishers", Json.num 1)]) :=
  ⟨by decide, getStats_returns_parsed_json _ _ (by decide) rfl⟩

/-- C6: the base URL is the single apiUrl value, defaulting to
http://localhost:3001 when the environment variable is unset, and every
operation's URL is that base followed by the operation's path. -/
theorem base_url_single_source (env : Option String) (id : String)
    (p : ContractSearchParams) (d : PublishRequest) :
    apiUrl none = "http://localhost:3001" ∧
    (getContracts_request env p).url =
      apiUrl env ++ "/api/contracts?" ++ queryToString (searchQueryPairs p) ∧
    (getContract_request env id).url = apiUrl env ++ "/api/contracts/" ++ id ∧
    (getContractVersions_request env id).url =
      apiUrl env ++ "/api/contracts/" ++ id ++ "/versions" ∧
    (publishContract_request env d).url = apiUrl env ++ "/api/contracts" ∧
    (getPublisher_request env id).url = apiUrl env ++ "/api/publishers/" ++ id ∧
    (getPublisherContracts_request env id).url =
      apiUrl env ++ "/api/publishers/" ++ id ++ "/contracts" ∧
    (getStats_request env).url = apiUrl env ++ "/api/stats" :=
  ⟨rfl, rfl, rfl, rfl, rfl, rfl, rfl, rfl⟩

/-- C7: a transport-level failure — the fetch itself raising, or the body
failing to parse as JSON on a 2xx response — propagates out of every
operation exactly as raised, never converted into the operation's generic
error. -/
theorem transport_failures_propagate (op : ApiOp) (e : JsException) (r : HttpResponse)
    (h2 : 200 ≤ r.status ∧ r.status ≤ 299) (hj : r.json = Except.error e) :
    opResult op (Except.error e) = Except.error e ∧
    opResult op (Except.ok r) = Except.error e := by
  have hok := responseOk_eq_true r h2
  cases op <;>
    exact ⟨rfl, by
      simp [opResult, getContracts_result, getContract_result, getContractVersions_result,
        publishContract_result, getPublisher_result, getPublisherContracts_result,
        getStats_result, handleResponse, hok, hj]⟩

/-- Witness for C7: a raised fetch failure and a JSON parse failure both
come out of getContract exactly as raised. -/
theorem transport_failures_propagate_witness :
    (200 ≤ (200 : Nat) ∧ (200 : Nat) ≤ 299) ∧
    (opResult ApiOp.getContract (Except.error (JsException.other "fetch failed")) =
      Except.error (JsException.other "fetch failed") ∧
    opResult ApiOp.getContract
        (Except.ok ⟨200, Except.error (JsException.other "fetch failed")⟩) =
      Except.error (JsException.other "fetch failed")) :=
  ⟨by decide, transport_failures_propagate ApiOp.getContract _ _ (by decide) rfl⟩

/-- C8: getContracts with the empty parameter object serializes an empty
query string, so the request URL is the base URL followed by
/api/contracts? with nothing after the question mark. -/
theorem getContracts_empty_params_url (env : Option String) :
    queryToString (searchQueryPairs {}) = "" ∧
    (getContracts_request env {}).url = apiUrl env ++ "/api/contracts?" := by
  refine ⟨rfl, ?_⟩
  show apiUrl env ++ "/api/contracts?" ++ queryToString (searchQueryPairs {}) = _
  rw [show queryToString (searchQueryPairs {}) = "" from rfl, String.append_empty]

/-- C9: the id-taking operations splice the raw id into the URL by literal
string concatenation with no URL-encoding, so an id containing a reserved
character such as / yields a URL whose path is not /api/contracts/{id}
with the id as a single segment: the id a/b produces the four segments
api, contracts, a, b rather than three. -/
theorem raw_id_interpolation (env : Option String) (id : String) :
    (getContract_request env id).url = apiUrl env ++ "/api/contracts/" ++ id ∧
    (getContractVersions_request env id).url =
      apiUrl env ++ "/api/contracts/" ++ id ++ "/versions" ∧
    (getPublisher_request env id).url = apiUrl env ++ "/api/publishers/" ++ id ∧
    (getPublisherContracts_request env id).url =
      apiUrl env ++ "/api/publishers/" ++ id ++ "/contracts" ∧
    Char.ofNat 47 ∈ "a/b".data ∧
    (getContract_request none "a/b").url = "http://localhost:3001/api/contracts/a/b" ∧
    pathSegments "/api/contracts/a/b" = ["api", "contracts", "a", "b"] ∧
    pathSegments "/api/contracts/a/b" ≠ ["api", "contracts", "a/b"] := by
  refine ⟨rfl, rfl, rfl, rfl, by decide, rfl, by decide, by decide⟩

/-- C10: an environment variable set to the empty string falls back to the
same localhost default as an unset variable, because the JavaScript ||
treats every falsy value alike. -/
theorem empty_env_var_falls_back_to_default :
    apiUrl (some "") = "http://localhost:3001" ∧
    apiUrl none = "http://localhost:3001" :=
  ⟨rfl, rfl⟩

end SorobanRegistry
